import Mathlib

/-!
# calendar-sync: event translators and webhook handlers

A shallow embedding of `src/calendar-sync.js`.

* JavaScript values that may be `undefined` are `Option`s; the operator `a || b`
  on strings is modelled with its truthiness test (the empty string and
  `undefined` are falsy).
* A handler run is a `Run`: the calls it makes, in order (provider calls,
  `console.error`, `res.status(..).send(..)`), whether a response has been sent,
  and the exception that is propagating, if any.
* The outcomes of the provider calls and the behaviour of a second `send` on the
  same response are inputs (`Env`).
* The loop bodies read `calendar.events` on the list entry and the free
  identifier `outlookCalendarId`. `handleGoogleWebhook` and
  `handleOutlookWebhook` fix both reads to what the module as written provides
  (`undefined`, no binding); `handleGoogleWebhookIn` and `handleOutlookWebhookIn`
  are the same statements with the results of the two reads as inputs
  (`Bindings`), and agree with the former at `moduleBindings`.
-/

namespace CalendarSync

/-! ## JavaScript string helpers -/

/-- JavaScript truthiness of a value that is a string or `undefined`. -/
def truthy : Option String → Bool
  | none => false
  | some s => s != ""

/-- The expression `a || b` for values that are strings or `undefined`. -/
def jsOr (a b : Option String) : Option String :=
  if truthy a then a else b

/-- The expression `a || ''`. -/
def orEmpty (a : Option String) : String :=
  match a with
  | some s => if s != "" then s else ""
  | none => ""

/-- Substring search on character lists: does `search` occur in `text`? -/
def includesChars : List Char → List Char → Bool
  | [], search => search.isEmpty
  | c :: cs, search => search.isPrefixOf (c :: cs) || includesChars cs search

/-- The method `text.includes(search)`. -/
def includes (text search : String) : Bool :=
  includesChars text.data search.data

/-! ## Constants and data model -/

/-- Line 12: `const SYNC_TAG = '[SyncedByMyApp]'`. -/
def SYNC_TAG : String := "[SyncedByMyApp]"

/-- The `start` / `end` object of a Google event. -/
structure GoogleTime where
  dateTime : Option String
  date : Option String
  timeZone : Option String
  deriving DecidableEq, Repr

/-- A Google-shaped event (the fields the program reads or writes). -/
structure GoogleEvent where
  summary : Option String
  start : GoogleTime
  end_ : GoogleTime
  description : Option String
  deriving DecidableEq, Repr

/-- The `start` / `end` object of an Outlook event. -/
structure OutlookTime where
  dateTime : Option String
  timeZone : Option String
  deriving DecidableEq, Repr

/-- The `body` object of an Outlook event. -/
structure OutlookBody where
  contentType : Option String
  content : Option String
  deriving DecidableEq, Repr

/-- An Outlook-shaped event (the fields the program reads or writes). -/
structure OutlookEvent where
  subject : Option String
  start : OutlookTime
  end_ : OutlookTime
  body : Option OutlookBody
  deriving DecidableEq, Repr

/-! ## Helpers (lines 45-101) -/

/-- Lines 45-63. -/
def buildOutlookEvent (googleEvent : GoogleEvent) : OutlookEvent :=
  let description := orEmpty googleEvent.description
  { subject := googleEvent.summary
    start :=
      { dateTime := jsOr googleEvent.start.dateTime googleEvent.start.date
        timeZone := some "UTC" }
    end_ :=
      { dateTime := jsOr googleEvent.end_.dateTime googleEvent.end_.date
        timeZone := some "UTC" }
    body := some
      { contentType := some "Text"
        content := some (description ++ "\n\n" ++ SYNC_TAG) } }

/-- Lines 65-78. The expression `outlookEvent.body?.content` is the `bind`. -/
def buildGoogleEvent (outlookEvent : OutlookEvent) : GoogleEvent :=
  let content := orEmpty (outlookEvent.body.bind (fun b => b.content))
  { summary := outlookEvent.subject
    start := { dateTime := outlookEvent.start.dateTime, date := none, timeZone := none }
    end_ := { dateTime := outlookEvent.end_.dateTime, date := none, timeZone := none }
    description := some (content ++ "\n\n" ++ SYNC_TAG) }

/-- Lines 80-88. -/
def buildGoogleToGoogleEvent (sourceEvent : GoogleEvent) : GoogleEvent :=
  let description := orEmpty sourceEvent.description
  { summary := sourceEvent.summary
    start := sourceEvent.start
    end_ := sourceEvent.end_
    description := some (description ++ "\n\n" ++ SYNC_TAG) }

/-- Lines 90-101. -/
def buildOutlookToOutlookEvent (sourceEvent : OutlookEvent) : OutlookEvent :=
  let content := orEmpty (sourceEvent.body.bind (fun b => b.content))
  { subject := sourceEvent.subject
    start := sourceEvent.start
    end_ := sourceEvent.end_
    body := some
      { contentType := some "Text"
        content := some (content ++ "\n\n" ++ SYNC_TAG) } }

/-- The text the Google handler's guard inspects (line 116): `event.description || ''`. -/
def googleGuardText (event : GoogleEvent) : String :=
  orEmpty event.description

/-- The text the Outlook handler's guard inspects (line 145):
`outlookEvent.body?.content || ''`. -/
def outlookGuardText (outlookEvent : OutlookEvent) : String :=
  orEmpty (outlookEvent.body.bind (fun b => b.content))

/-! ## Destination list (lines 14-21) -/

/-- An entry of `SYNC_CALENDARS`: an object literal with exactly these three
properties. -/
structure DestinationConfig where
  name : String
  provider : String
  calendarId : String
  deriving DecidableEq, Repr

/-- Lines 16-21. -/
def SYNC_CALENDARS : List DestinationConfig :=
  [ { name := "Work Google", provider := "google", calendarId := "work@example.com" },
    { name := "Personal Google", provider := "google", calendarId := "primary" },
    { name := "Personal Outlook", provider := "outlook", calendarId := "me" } ]

/-! ## Effects of a handler run -/

/-- An exception value. -/
inductive JsError where
  | typeError (message : String)
  | referenceError (message : String)
  | providerError (message : String)
  | headersSent
  deriving DecidableEq, Repr

/-- A call made by a handler, recorded when the call is made. -/
inductive Action where
  | googleList (calendarId : String)
  | googleInsert (calendarId : String) (requestBody : GoogleEvent)
  | outlookGet (path : String)
  | outlookPost (path : String) (payload : OutlookEvent)
  | logError (label : String) (err : JsError)
  | logCalendar (label : String) (calendar : DestinationConfig)
  | respond (status : Nat) (body : String)
  deriving DecidableEq, Repr

/-- The state of an execution: the calls made so far, `res.headersSent`, and the
exception that is propagating (`none` on normal completion). -/
structure Run where
  trace : List Action
  sent : Bool
  error : Option JsError
  deriving DecidableEq, Repr

/-- Sequencing of statements: `next` runs only when `r` completed normally. -/
def Run.andThen (r : Run) (next : Bool → Run) : Run :=
  match r.error with
  | some _ => r
  | none =>
    let r' := next r.sent
    { trace := r.trace ++ r'.trace, sent := r'.sent, error := r'.error }

/-- The statement `try { body } catch (err) { handler }`. -/
def tryCatch (body : Run) (handler : JsError → Bool → Run) : Run :=
  match body.error with
  | none => body
  | some err =>
    let h := handler err body.sent
    { trace := body.trace ++ h.trace, sent := h.sent, error := h.error }

/-- The statement `for (const calendar of registry) { body }`. -/
def forOf (body : DestinationConfig → Bool → Run) : List DestinationConfig → Bool → Run
  | [], sent => { trace := [], sent := sent, error := none }
  | calendar :: rest, sent => (body calendar sent).andThen (forOf body rest)

/-- Result of `calendar.events.list(..)` on the Google client: the call rejects,
or resolves with a response whose `data.items` is missing, or with a list. -/
inductive ListOutcome where
  | throws (err : JsError)
  | noItems
  | items (events : List GoogleEvent)

/-- The collaborators of one handler invocation. -/
structure Env where
  /-- Whether `send` on a response that has already been sent throws. -/
  resendThrows : Bool
  /-- Outcome of line 107. -/
  listOutcome : ListOutcome
  /-- Outcome of line 144. -/
  getOutcome : Except JsError OutlookEvent
  /-- Outcome of an `insert` on the Google client (`some err`: it rejects). -/
  insertOutcome : String → GoogleEvent → Option JsError
  /-- Outcome of a `post` on the Microsoft client (`some err`: it rejects). -/
  postOutcome : String → OutlookEvent → Option JsError

/-- The expression `res.status(status).send(body)`. -/
def send (env : Env) (sent : Bool) (status : Nat) (body : String) : Run :=
  { trace := [Action.respond status body]
    sent := true
    error := if sent && env.resendThrows then some JsError.headersSent else none }

/-- The `events` resource of a Google Calendar client. -/
inductive EventsResource where
  | ofClient
  deriving DecidableEq, Repr

/-- The property read `calendar.events` inside the loops (lines 121 and 151).
There `calendar` is the loop variable of `for (const calendar of SYNC_CALENDARS)`,
which shadows the module-level Google client of line 35, and an entry of the
list has no `events` property: the read yields `undefined`. -/
def DestinationConfig.events (_calendar : DestinationConfig) : Option EventsResource :=
  none

/-- The identifier `outlookCalendarId` read at lines 124 and 154: it is declared
nowhere in the module, so it has no binding. -/
def outlookCalendarId : Option String :=
  none

/-- Lines 119-128: one iteration of the loop of `handleGoogleWebhook`. -/
def googleLoopBody (env : Env) (event : GoogleEvent) (calendar : DestinationConfig)
    (sent : Bool) : Run :=
  if calendar.provider == "google" then
    let newEvent := buildGoogleToGoogleEvent event
    match calendar.events with
    | none =>
      { trace := [], sent := sent
        error := some (JsError.typeError
          "Cannot read properties of undefined (reading 'insert')") }
    | some _ =>
      { trace := [Action.googleInsert calendar.calendarId newEvent], sent := sent
        error := env.insertOutcome calendar.calendarId newEvent }
  else if calendar.provider == "outlook" then
    let outlookEvent := buildOutlookEvent event
    match outlookCalendarId with
    | none =>
      { trace := [], sent := sent
        error := some (JsError.referenceError "outlookCalendarId is not defined") }
    | some userId =>
      { trace := [Action.outlookPost ("/users/" ++ userId ++ "/events") outlookEvent]
        sent := sent
        error := env.postOutcome ("/users/" ++ userId ++ "/events") outlookEvent }
  else
    Run.andThen
      { trace := [Action.logCalendar "Unrecognized calendar provider type:" calendar]
        sent := sent, error := none }
      (fun sent => send env sent 500 "Error")

/-- Lines 149-158: one iteration of the loop of `handleOutlookWebhook`. -/
def outlookLoopBody (env : Env) (outlookEvent : OutlookEvent) (calendar : DestinationConfig)
    (sent : Bool) : Run :=
  if calendar.provider == "google" then
    let googleEvent := buildGoogleEvent outlookEvent
    match calendar.events with
    | none =>
      { trace := [], sent := sent
        error := some (JsError.typeError
          "Cannot read properties of undefined (reading 'insert')") }
    | some _ =>
      { trace := [Action.googleInsert calendar.calendarId googleEvent], sent := sent
        error := env.insertOutcome calendar.calendarId googleEvent }
  else if calendar.provider == "outlook" then
    let newEvent := buildOutlookToOutlookEvent outlookEvent
    match outlookCalendarId with
    | none =>
      { trace := [], sent := sent
        error := some (JsError.referenceError "outlookCalendarId is not defined") }
    | some userId =>
      { trace := [Action.outlookPost ("/users/" ++ userId ++ "/events") newEvent]
        sent := sent
        error := env.postOutcome ("/users/" ++ userId ++ "/events") newEvent }
  else
    Run.andThen
      { trace := [Action.logCalendar "Unrecognized calendar provider type:" calendar]
        sent := sent, error := none }
      (fun sent => send env sent 500 "Error")

/-! ## Handlers (lines 104-166) -/

/-- The inbound HTTP request: `req.body` as parsed by `express.json()`. -/
structure Notification where
  id : String
  deriving DecidableEq, Repr

/-- The body of a change notification. -/
structure RequestBody where
  value : Option (List Notification)
  deriving DecidableEq, Repr

/-- The request object. -/
structure Request where
  body : Option RequestBody
  deriving DecidableEq, Repr

/-- Lines 107-131: the `try` block of `handleGoogleWebhook`. -/
def googleTryBlock (registry : List DestinationConfig) (env : Env) : Run :=
  let calendarId := "primary"
  match env.listOutcome with
  | ListOutcome.throws err =>
    { trace := [Action.googleList calendarId], sent := false, error := some err }
  | ListOutcome.noItems =>
    { trace := [Action.googleList calendarId], sent := false
      error := some (JsError.typeError "undefined is not iterable") }
  | ListOutcome.items items =>
    let listed : Run := { trace := [Action.googleList calendarId], sent := false, error := none }
    let guarded : Bool → Run := fun sent =>
      match items.head? with
      | some event =>
        if !(includes (orEmpty event.description) SYNC_TAG) then
          forOf (googleLoopBody env event) registry sent
        else
          { trace := [], sent := sent, error := none }
      | none => { trace := [], sent := sent, error := none }
    (listed.andThen guarded).andThen (fun sent => send env sent 200 "OK")

/-- Lines 104-136. The destination list, read from the module constant
`SYNC_CALENDARS` in the source, is a parameter here. -/
def handleGoogleWebhook (registry : List DestinationConfig) (env : Env) (_req : Request) : Run :=
  tryCatch (googleTryBlock registry env) (fun err sent =>
    Run.andThen
      { trace := [Action.logError "Google Webhook Error:" err], sent := sent, error := none }
      (fun sent => send env sent 500 "Error"))

/-- Lines 144-161: the `try` block of `handleOutlookWebhook`. -/
def outlookTryBlock (registry : List DestinationConfig) (env : Env)
    (eventData : Notification) : Run :=
  let path := "/me/events/" ++ eventData.id
  match env.getOutcome with
  | Except.error err => { trace := [Action.outlookGet path], sent := false, error := some err }
  | Except.ok outlookEvent =>
    let fetched : Run := { trace := [Action.outlookGet path], sent := false, error := none }
    let content := orEmpty (outlookEvent.body.bind (fun b => b.content))
    let guarded : Bool → Run := fun sent =>
      if !(includes content SYNC_TAG) then
        forOf (outlookLoopBody env outlookEvent) registry sent
      else
        { trace := [], sent := sent, error := none }
    (fetched.andThen guarded).andThen (fun sent => send env sent 200 "OK")

/-- Lines 139-166. The expression `req.body?.value?.[0]` is the double `bind`. -/
def handleOutlookWebhook (registry : List DestinationConfig) (env : Env) (req : Request) : Run :=
  match (req.body.bind (fun b => b.value)).bind (fun l => l.head?) with
  | none => send env false 400 "No event data"
  | some eventData =>
    tryCatch (outlookTryBlock registry env eventData) (fun err sent =>
      Run.andThen
        { trace := [Action.logError "Outlook Webhook Error:" err], sent := sent, error := none }
        (fun sent => send env sent 500 "Error"))

/-! ## Observations on a trace -/

/-- Is the call a submission to a destination (an `insert` or a `post`)? -/
def Action.isSubmission : Action → Bool
  | Action.googleInsert _ _ => true
  | Action.outlookPost _ _ => true
  | _ => false

/-- Is the call a `res.status(..).send(..)`? -/
def Action.isResponse : Action → Bool
  | Action.respond _ _ => true
  | _ => false

/-- Is the call a call to a provider client (list, get, insert or post)? -/
def Action.isProviderCall : Action → Bool
  | Action.googleList _ => true
  | Action.googleInsert _ _ => true
  | Action.outlookGet _ => true
  | Action.outlookPost _ _ => true
  | _ => false

/-- The submissions of a run, in order. -/
def submissions (r : Run) : List Action :=
  r.trace.filter Action.isSubmission

/-- The `res.status(..).send(..)` calls of a run, in order. -/
def responses (r : Run) : List Action :=
  r.trace.filter Action.isResponse

/-- The submission the destination `calendar` is due for a Google source event:
the payload of the translator for its provider kind, sent to its `calendarId`
through the client of that kind. -/
def expectedGoogleSubmission (event : GoogleEvent) (calendar : DestinationConfig) :
    Option Action :=
  if calendar.provider == "google" then
    some (Action.googleInsert calendar.calendarId (buildGoogleToGoogleEvent event))
  else if calendar.provider == "outlook" then
    some (Action.outlookPost ("/users/" ++ calendar.calendarId ++ "/events")
      (buildOutlookEvent event))
  else none

/-! ## Sample inputs (the scenarios of the specification) -/

/-- The source event of scenario 1. -/
def standup : GoogleEvent :=
  { summary := some "Standup"
    start := { dateTime := some "2024-01-01T09:00:00Z", date := none, timeZone := none }
    end_ := { dateTime := some "2024-01-01T09:30:00Z", date := none, timeZone := none }
    description := some "daily" }

/-- The event of scenario 3: a copy made by an earlier sync. -/
def syncedStandup : GoogleEvent :=
  { standup with description := some "daily\n\n[SyncedByMyApp]" }

/-- An Outlook event that has not been synced. -/
def outlookStandup : OutlookEvent :=
  { subject := some "Standup"
    start := { dateTime := some "2024-01-01T09:00:00Z", timeZone := some "UTC" }
    end_ := { dateTime := some "2024-01-01T09:30:00Z", timeZone := some "UTC" }
    body := some { contentType := some "Text", content := some "daily" } }

/-- An Outlook event that is a copy made by an earlier sync. -/
def syncedOutlookStandup : OutlookEvent :=
  { outlookStandup with
    body := some { contentType := some "Text", content := some "daily\n\n[SyncedByMyApp]" } }

/-- Collaborators whose provider calls all succeed: the list call returns
`googleEvents`, the get call returns `outlookEvent`, inserts and posts resolve. -/
def allSucceed (googleEvents : List GoogleEvent) (outlookEvent : OutlookEvent) : Env :=
  { resendThrows := true
    listOutcome := ListOutcome.items googleEvents
    getOutcome := Except.ok outlookEvent
    insertOutcome := fun _ _ => none
    postOutcome := fun _ _ => none }

/-- A notification request for the Outlook event with identifier `'42'`. -/
def notification42 : Request :=
  { body := some { value := some [{ id := "42" }] } }

/-- The request body `{ value: [] }` of scenario 4. -/
def emptyNotification : Request :=
  { body := some { value := some [] } }

/-- A destination whose provider kind is not one the handlers know. -/
def legacyCalendar : DestinationConfig :=
  { name := "Legacy iCal", provider := "ical", calendarId := "legacy" }

/-- The submission the destination `calendar` is due for an Outlook source event. -/
def expectedOutlookSubmission (outlookEvent : OutlookEvent) (calendar : DestinationConfig) :
    Option Action :=
  if calendar.provider == "google" then
    some (Action.googleInsert calendar.calendarId (buildGoogleEvent outlookEvent))
  else if calendar.provider == "outlook" then
    some (Action.outlookPost ("/users/" ++ calendar.calendarId ++ "/events")
      (buildOutlookToOutlookEvent outlookEvent))
  else none

/-! ## The handlers with the outside reads of the loop bodies as inputs

Inside the loops the source reads two names that neither handler binds:
`calendar.events`, a property read on the list entry, and the free identifier
`outlookCalendarId`. What they evaluate to is decided outside the handlers: by
the entry object (its own properties and those of its prototype chain) and by
the global scope. The definitions below are the same statements, line by line,
with the results of these two reads taken from a `Bindings` value. -/

/-- The results of the two reads. -/
structure Bindings where
  /-- The value of `calendar.events` for a list entry (`none`: `undefined`). -/
  entryEvents : DestinationConfig → Option EventsResource
  /-- The value of `outlookCalendarId` (`none`: no binding, a ReferenceError). -/
  outlookCalendarId : Option String

/-- The bindings of the module as written: the entries of the list are object
literals without an `events` property, and nothing declares `outlookCalendarId`. -/
def moduleBindings : Bindings :=
  { entryEvents := DestinationConfig.events
    outlookCalendarId := outlookCalendarId }

/-- Lines 119-128 under given bindings. -/
def googleLoopBodyIn (b : Bindings) (env : Env) (event : GoogleEvent)
    (calendar : DestinationConfig) (sent : Bool) : Run :=
  if calendar.provider == "google" then
    let newEvent := buildGoogleToGoogleEvent event
    match b.entryEvents calendar with
    | none =>
      { trace := [], sent := sent
        error := some (JsError.typeError
          "Cannot read properties of undefined (reading 'insert')") }
    | some _ =>
      { trace := [Action.googleInsert calendar.calendarId newEvent], sent := sent
        error := env.insertOutcome calendar.calendarId newEvent }
  else if calendar.provider == "outlook" then
    let outlookEvent := buildOutlookEvent event
    match b.outlookCalendarId with
    | none =>
      { trace := [], sent := sent
        error := some (JsError.referenceError "outlookCalendarId is not defined") }
    | some userId =>
      { trace := [Action.outlookPost ("/users/" ++ userId ++ "/events") outlookEvent]
        sent := sent
        error := env.postOutcome ("/users/" ++ userId ++ "/events") outlookEvent }
  else
    Run.andThen
      { trace := [Action.logCalendar "Unrecognized calendar provider type:" calendar]
        sent := sent, error := none }
      (fun sent => send env sent 500 "Error")

/-- Lines 149-158 under given bindings. -/
def outlookLoopBodyIn (b : Bindings) (env : Env) (outlookEvent : OutlookEvent)
    (calendar : DestinationConfig) (sent : Bool) : Run :=
  if calendar.provider == "google" then
    let googleEvent := buildGoogleEvent outlookEvent
    match b.entryEvents calendar with
    | none =>
      { trace := [], sent := sent
        error := some (JsError.typeError
          "Cannot read properties of undefined (reading 'insert')") }
    | some _ =>
      { trace := [Action.googleInsert calendar.calendarId googleEvent], sent := sent
        error := env.insertOutcome calendar.calendarId googleEvent }
  else if calendar.provider == "outlook" then
    let newEvent := buildOutlookToOutlookEvent outlookEvent
    match b.outlookCalendarId with
    | none =>
      { trace := [], sent := sent
        error := some (JsError.referenceError "outlookCalendarId is not defined") }
    | some userId =>
      { trace := [Action.outlookPost ("/users/" ++ userId ++ "/events") newEvent]
        sent := sent
        error := env.postOutcome ("/users/" ++ userId ++ "/events") newEvent }
  else
    Run.andThen
      { trace := [Action.logCalendar "Unrecognized calendar provider type:" calendar]
        sent := sent, error := none }
      (fun sent => send env sent 500 "Error")

/-- Lines 107-131 under given bindings. -/
def googleTryBlockIn (b : Bindings) (registry : List DestinationConfig) (env : Env) : Run :=
  let calendarId := "primary"
  match env.listOutcome with
  | ListOutcome.throws err =>
    { trace := [Action.googleList calendarId], sent := false, error := some err }
  | ListOutcome.noItems =>
    { trace := [Action.googleList calendarId], sent := false
      error := some (JsError.typeError "undefined is not iterable") }
  | ListOutcome.items items =>
    let listed : Run := { trace := [Action.googleList calendarId], sent := false, error := none }
    let guarded : Bool → Run := fun sent =>
      match items.head? with
      | some event =>
        if !(includes (orEmpty event.description) SYNC_TAG) then
          forOf (googleLoopBodyIn b env event) registry sent
        else
          { trace := [], sent := sent, error := none }
      | none => { trace := [], sent := sent, error := none }
    (listed.andThen guarded).andThen (fun sent => send env sent 200 "OK")

/-- Lines 104-136 under given bindings. -/
def handleGoogleWebhookIn (b : Bindings) (registry : List DestinationConfig) (env : Env)
    (_req : Request) : Run :=
  tryCatch (googleTryBlockIn b registry env) (fun err sent =>
    Run.andThen
      { trace := [Action.logError "Google Webhook Error:" err], sent := sent, error := none }
      (fun sent => send env sent 500 "Error"))

/-- Lines 144-161 under given bindings. -/
def outlookTryBlockIn (b : Bindings) (registry : List DestinationConfig) (env : Env)
    (eventData : Notification) : Run :=
  let path := "/me/events/" ++ eventData.id
  match env.getOutcome with
  | Except.error err => { trace := [Action.outlookGet path], sent := false, error := some err }
  | Except.ok outlookEvent =>
    let fetched : Run := { trace := [Action.outlookGet path], sent := false, error := none }
    let content := orEmpty (outlookEvent.body.bind (fun b => b.content))
    let guarded : Bool → Run := fun sent =>
      if !(includes content SYNC_TAG) then
        forOf (outlookLoopBodyIn b env outlookEvent) registry sent
      else
        { trace := [], sent := sent, error := none }
    (fetched.andThen guarded).andThen (fun sent => send env sent 200 "OK")

/-- Lines 139-166 under given bindings. -/
def handleOutlookWebhookIn (b : Bindings) (registry : List DestinationConfig) (env : Env)
    (req : Request) : Run :=
  match (req.body.bind (fun b => b.value)).bind (fun l => l.head?) with
  | none => send env false 400 "No event data"
  | some eventData =>
    tryCatch (outlookTryBlockIn b registry env eventData) (fun err sent =>
      Run.andThen
        { trace := [Action.logError "Outlook Webhook Error:" err], sent := sent, error := none }
        (fun sent => send env sent 500 "Error"))

/-- Bindings under which the submissions are reached: `calendar.events` yields an
events resource for every entry, and `outlookCalendarId` is bound to 'me'. -/
def reachingBindings : Bindings :=
  { entryEvents := fun _ => some EventsResource.ofClient
    outlookCalendarId := some "me" }

/-- Collaborators where the insert into the calendar `failing` rejects and every
other provider call succeeds. -/
def insertRejects (failing : String) : Env :=
  { resendThrows := true
    listOutcome := ListOutcome.items [standup]
    getOutcome := Except.ok outlookStandup
    insertOutcome := fun calendarId _ =>
      if calendarId == failing then some (JsError.providerError "insert rejected") else none
    postOutcome := fun _ _ => none }

/-! ## Lemmas on the string helpers -/

theorem orEmpty_eq_getD (a : Option String) : orEmpty a = a.getD "" := by
  cases a with
  | none => rfl
  | some s =>
    by_cases h : s = ""
    · subst h; rfl
    · simp [orEmpty, h]

theorem includesChars_iff (text search : List Char) :
    includesChars text search = true ↔ search <:+: text := by
  induction text with
  | nil => simp [includesChars, List.isEmpty_iff]
  | cons c cs ih =>
    simp only [includesChars, Bool.or_eq_true, ih, List.isPrefixOf_iff_prefix]
    exact (List.infix_cons_iff).symm

theorem includes_iff (text search : String) :
    includes text search = true ↔ ∃ pre post : String, text = pre ++ search ++ post := by
  unfold includes
  rw [includesChars_iff]
  constructor
  · rintro ⟨a, b, h⟩
    refine ⟨⟨a⟩, ⟨b⟩, ?_⟩
    apply String.ext
    simp [String.data_append, h]
  · rintro ⟨pre, post, h⟩
    refine ⟨pre.data, post.data, ?_⟩
    rw [h]
    simp [String.data_append]

theorem includes_tagged (text : String) :
    includes (text ++ "\n\n" ++ SYNC_TAG) SYNC_TAG = true :=
  (includes_iff _ _).2 ⟨text ++ "\n\n", "", by simp⟩

theorem marker_literal (text : String) :
    text ++ "\n\n" ++ SYNC_TAG = text ++ "\n\n[SyncedByMyApp]" := by
  rw [String.append_assoc]
  rfl

/-! ## Translators -/

/-- C2. Every translator output is recognised as synced: whatever the source
event holds (text present, empty or absent), the description built by
`buildGoogleEvent` and `buildGoogleToGoogleEvent` and the body content built by
`buildOutlookEvent` and `buildOutlookToOutlookEvent` end with `SYNC_TAG`, hence
contain it, and the text the handlers' guard inspects, `(text || '')`, includes
`SYNC_TAG`. -/
theorem translator_output_is_synced (g : GoogleEvent) (o : OutlookEvent) :
    ((∃ pre, (buildGoogleEvent o).description = some (pre ++ SYNC_TAG)) ∧
      includes (googleGuardText (buildGoogleEvent o)) SYNC_TAG = true) ∧
    ((∃ pre, (buildGoogleToGoogleEvent g).description = some (pre ++ SYNC_TAG)) ∧
      includes (googleGuardText (buildGoogleToGoogleEvent g)) SYNC_TAG = true) ∧
    ((∃ pre, (buildOutlookEvent g).body.bind (fun b => b.content) = some (pre ++ SYNC_TAG)) ∧
      includes (outlookGuardText (buildOutlookEvent g)) SYNC_TAG = true) ∧
    ((∃ pre, (buildOutlookToOutlookEvent o).body.bind (fun b => b.content)
        = some (pre ++ SYNC_TAG)) ∧
      includes (outlookGuardText (buildOutlookToOutlookEvent o)) SYNC_TAG = true) := by
  refine ⟨⟨⟨_, rfl⟩, ?_⟩, ⟨⟨_, rfl⟩, ?_⟩, ⟨⟨_, rfl⟩, ?_⟩, ⟨⟨_, rfl⟩, ?_⟩⟩
  · simp only [googleGuardText, buildGoogleEvent, orEmpty_eq_getD, Option.getD_some]
    exact includes_tagged _
  · simp only [googleGuardText, buildGoogleToGoogleEvent, orEmpty_eq_getD, Option.getD_some]
    exact includes_tagged _
  · simp only [outlookGuardText, buildOutlookEvent, orEmpty_eq_getD, Option.some_bind,
      Option.getD_some]
    exact includes_tagged _
  · simp only [outlookGuardText, buildOutlookToOutlookEvent, orEmpty_eq_getD, Option.some_bind,
      Option.getD_some]
    exact includes_tagged _

/-- C5. For every Google-shaped event `e`, `buildOutlookEvent e` has subject
`e.summary`, a body of content type 'Text', and body content
`d ++ "\n\n[SyncedByMyApp]"` where `d` is `e.description`, or the empty string when
the description is absent (or empty). A description 'daily' gives
'daily\n\n[SyncedByMyApp]'; an absent or empty one gives '\n\n[SyncedByMyApp]'. -/
theorem buildOutlookEvent_subject_and_body (e : GoogleEvent) :
    (buildOutlookEvent e).subject = e.summary ∧
    (buildOutlookEvent e).body =
      some { contentType := some "Text"
             content := some (e.description.getD "" ++ "\n\n[SyncedByMyApp]") } ∧
    (buildOutlookEvent { e with description := some "daily" }).body =
      some { contentType := some "Text", content := some "daily\n\n[SyncedByMyApp]" } ∧
    (buildOutlookEvent { e with description := none }).body =
      some { contentType := some "Text", content := some "\n\n[SyncedByMyApp]" } ∧
    (buildOutlookEvent { e with description := some "" }).body =
      some { contentType := some "Text", content := some "\n\n[SyncedByMyApp]" } := by
  refine ⟨rfl, ?_, rfl, rfl, rfl⟩
  simp only [buildOutlookEvent, orEmpty_eq_getD, marker_literal]

/-- C6. Translator round trip: for every Google-shaped event `e`,
`buildGoogleEvent (buildOutlookEvent e)` has summary `e.summary`, and its
description is the original description (the empty string when absent) followed
by the marker block of the first translation and then the appended marker
block; in particular the original description is a substring of it and the
text ends with the appended marker. -/
theorem roundtrip_google_outlook_google (e : GoogleEvent) :
    (buildGoogleEvent (buildOutlookEvent e)).summary = e.summary ∧
    (buildGoogleEvent (buildOutlookEvent e)).description =
      some (e.description.getD "" ++ "\n\n[SyncedByMyApp]" ++ "\n\n[SyncedByMyApp]") ∧
    (∃ pre post, (buildGoogleEvent (buildOutlookEvent e)).description =
      some (pre ++ e.description.getD "" ++ post ++ "\n\n" ++ SYNC_TAG)) := by
  have h : (buildGoogleEvent (buildOutlookEvent e)).description =
      some (e.description.getD "" ++ "\n\n[SyncedByMyApp]" ++ "\n\n[SyncedByMyApp]") := by
    simp only [buildGoogleEvent, buildOutlookEvent, orEmpty_eq_getD, Option.some_bind,
      Option.getD_some, marker_literal]
  refine ⟨rfl, h, "", "\n\n[SyncedByMyApp]", ?_⟩
  rw [h, marker_literal]
  simp

/-- C8. Cross-provider time mapping: for every Google-shaped event `e`, the
`dateTime` of `(buildOutlookEvent e).start` is `e.start.dateTime` when that
timestamp is present (a non-empty string), and otherwise (the field is absent,
or holds the empty string, which JavaScript treats like an absent value) it is
the all-day `e.start.date`; likewise for `end`; and both time zones are the
constant 'UTC' whatever the source event holds. -/
theorem buildOutlookEvent_times (e : GoogleEvent) :
    (∀ s, e.start.dateTime = some s → s ≠ "" →
      (buildOutlookEvent e).start.dateTime = some s) ∧
    (e.start.dateTime = none ∨ e.start.dateTime = some "" →
      (buildOutlookEvent e).start.dateTime = e.start.date) ∧
    (∀ s, e.end_.dateTime = some s → s ≠ "" →
      (buildOutlookEvent e).end_.dateTime = some s) ∧
    (e.end_.dateTime = none ∨ e.end_.dateTime = some "" →
      (buildOutlookEvent e).end_.dateTime = e.end_.date) ∧
    (buildOutlookEvent e).start.timeZone = some "UTC" ∧
    (buildOutlookEvent e).end_.timeZone = some "UTC" := by
  refine ⟨?_, ?_, ?_, ?_, rfl, rfl⟩
  · intro s hs hne
    simp [buildOutlookEvent, jsOr, truthy, hs, hne]
  · rintro (h | h) <;> simp [buildOutlookEvent, jsOr, truthy, h]
  · intro s hs hne
    simp [buildOutlookEvent, jsOr, truthy, hs, hne]
  · rintro (h | h) <;> simp [buildOutlookEvent, jsOr, truthy, h]

/-- Witness for C8: a timed start (with a source time zone) and an all-day end. -/
theorem buildOutlookEvent_times_witness :
    (buildOutlookEvent
      { summary := some "Standup"
        start := { dateTime := some "2024-01-01T09:00:00Z", date := none,
                   timeZone := some "Europe/Paris" }
        end_ := { dateTime := none, date := some "2024-01-02", timeZone := none }
        description := some "daily" }).start.dateTime = some "2024-01-01T09:00:00Z" ∧
    (buildOutlookEvent
      { summary := some "Standup"
        start := { dateTime := some "2024-01-01T09:00:00Z", date := none,
                   timeZone := some "Europe/Paris" }
        end_ := { dateTime := none, date := some "2024-01-02", timeZone := none }
        description := some "daily" }).end_.dateTime = some "2024-01-02" :=
  ⟨(buildOutlookEvent_times _).1 "2024-01-01T09:00:00Z" rfl (by decide),
   (buildOutlookEvent_times _).2.2.2.1 (Or.inl rfl)⟩

/-! ## Handlers: the guard and the malformed notification -/

/-- C1. Loop prevention: when the event fetched by `handleGoogleWebhook` has a
description containing the marker, and when the event fetched by
`handleOutlookWebhook` has a body content containing it, the handler, for any
destination list, only fetches and then calls `res.status(200).send('OK')`: it
makes no insert or post call and completes normally. -/
theorem loop_prevention (registry : List DestinationConfig) (env : Env) (req : Request) :
    (∀ event rest text, env.listOutcome = ListOutcome.items (event :: rest) →
      event.description = some text → (∃ pre post, text = pre ++ SYNC_TAG ++ post) →
      handleGoogleWebhook registry env req =
        { trace := [Action.googleList "primary", Action.respond 200 "OK"]
          sent := true, error := none } ∧
      submissions (handleGoogleWebhook registry env req) = []) ∧
    (∀ eventData outlookEvent body text,
      (req.body.bind (fun b => b.value)).bind (fun l => l.head?) = some eventData →
      env.getOutcome = Except.ok outlookEvent →
      outlookEvent.body = some body → body.content = some text →
      (∃ pre post, text = pre ++ SYNC_TAG ++ post) →
      handleOutlookWebhook registry env req =
        { trace := [Action.outlookGet ("/me/events/" ++ eventData.id), Action.respond 200 "OK"]
          sent := true, error := none } ∧
      submissions (handleOutlookWebhook registry env req) = []) := by
  constructor
  · intro event rest text hList hDesc hTag
    have hInc : includes (orEmpty event.description) SYNC_TAG = true := by
      rw [orEmpty_eq_getD, hDesc]
      exact (includes_iff _ _).2 hTag
    have hRun : handleGoogleWebhook registry env req =
        { trace := [Action.googleList "primary", Action.respond 200 "OK"]
          sent := true, error := none } := by
      simp [handleGoogleWebhook, googleTryBlock, hList, hInc, Run.andThen, tryCatch, send]
    refine ⟨hRun, ?_⟩
    rw [hRun]
    rfl
  · intro eventData outlookEvent body text hReq hGet hBody hContent hTag
    have hInc : includes (orEmpty (outlookEvent.body.bind (fun b => b.content))) SYNC_TAG
        = true := by
      rw [orEmpty_eq_getD, hBody, Option.some_bind, hContent]
      exact (includes_iff _ _).2 hTag
    have hRun : handleOutlookWebhook registry env req =
        { trace := [Action.outlookGet ("/me/events/" ++ eventData.id), Action.respond 200 "OK"]
          sent := true, error := none } := by
      simp [handleOutlookWebhook, outlookTryBlock, hReq, hGet, hInc, Run.andThen, tryCatch, send]
    refine ⟨hRun, ?_⟩
    rw [hRun]
    rfl

/-- Witness for C1: an already synced Google event and an already synced Outlook
event, with the destination list of the source. -/
theorem loop_prevention_witness :
    (handleGoogleWebhook SYNC_CALENDARS (allSucceed [syncedStandup] syncedOutlookStandup)
        notification42).trace
      = [Action.googleList "primary", Action.respond 200 "OK"] ∧
    (handleOutlookWebhook SYNC_CALENDARS (allSucceed [syncedStandup] syncedOutlookStandup)
        notification42).trace
      = [Action.outlookGet "/me/events/42", Action.respond 200 "OK"] :=
  ⟨congrArg Run.trace
      ((loop_prevention SYNC_CALENDARS (allSucceed [syncedStandup] syncedOutlookStandup)
        notification42).1 syncedStandup [] "daily\n\n[SyncedByMyApp]" rfl rfl
        ⟨"daily\n\n", "", by decide⟩).1,
   congrArg Run.trace
      ((loop_prevention SYNC_CALENDARS (allSucceed [syncedStandup] syncedOutlookStandup)
        notification42).2 { id := "42" } syncedOutlookStandup
        { contentType := some "Text", content := some "daily\n\n[SyncedByMyApp]" }
        "daily\n\n[SyncedByMyApp]" rfl rfl rfl rfl ⟨"daily\n\n", "", by decide⟩).1⟩

/-- C7. Malformed Outlook notification: when the request body has no first entry
in `value` (body absent, `value` absent, or `value` the empty list), the handler,
for any destination list and any collaborators, makes exactly one call,
`res.status(400).send('No event data')`: no call to a provider client (no fetch)
and no submission. -/
theorem malformed_outlook_notification (registry : List DestinationConfig) (env : Env)
    (req : Request)
    (h : req.body = none ∨ req.body = some { value := none } ∨
      req.body = some { value := some [] }) :
    handleOutlookWebhook registry env req =
      { trace := [Action.respond 400 "No event data"], sent := true, error := none } ∧
    (handleOutlookWebhook registry env req).trace.filter Action.isProviderCall = [] ∧
    submissions (handleOutlookWebhook registry env req) = [] := by
  have hRun : handleOutlookWebhook registry env req =
      { trace := [Action.respond 400 "No event data"], sent := true, error := none } := by
    rcases h with h | h | h <;> simp [handleOutlookWebhook, h, send]
  refine ⟨hRun, ?_, ?_⟩ <;> rw [hRun] <;> rfl

/-- Witness for C7: the body `{ value: [] }` of scenario 4. -/
theorem malformed_outlook_notification_witness :
    handleOutlookWebhook SYNC_CALENDARS (allSucceed [standup] outlookStandup) emptyNotification =
      { trace := [Action.respond 400 "No event data"], sent := true, error := none } :=
  (malformed_outlook_notification SYNC_CALENDARS (allSucceed [standup] outlookStandup)
    emptyNotification (Or.inr (Or.inr rfl))).1

/-! ## Handlers: the fan-out loop -/

theorem Run.andThen_assoc (r : Run) (f g : Bool → Run) :
    (r.andThen f).andThen g = r.andThen (fun sent => (f sent).andThen g) := by
  unfold Run.andThen
  cases hr : r.error with
  | some e => simp [hr]
  | none =>
    cases hf : (f r.sent).error with
    | some e => simp [hf]
    | none => simp [hf, List.append_assoc]

theorem forOf_append (body : DestinationConfig → Bool → Run)
    (pre post : List DestinationConfig) (sent : Bool) :
    forOf body (pre ++ post) sent = (forOf body pre sent).andThen (forOf body post) := by
  induction pre generalizing sent with
  | nil => simp [forOf, Run.andThen]
  | cons calendar rest ih =>
    simp only [List.cons_append, forOf, Run.andThen_assoc]
    congr 1
    funext s
    exact ih s

/-- A loop whose iteration at `calendar` throws: the destinations after it do not
contribute, and the exception leaves the loop. -/
theorem forOf_throw (body : DestinationConfig → Bool → Run)
    (pre post : List DestinationConfig) (calendar : DestinationConfig) (err : JsError)
    (hPre : (forOf body pre false).error = none)
    (hThrow : (body calendar (forOf body pre false).sent).error = some err) :
    forOf body (pre ++ calendar :: post) false =
      { trace := (forOf body pre false).trace ++
          (body calendar (forOf body pre false).sent).trace
        sent := (body calendar (forOf body pre false).sent).sent
        error := some err } := by
  rw [forOf_append]
  simp [Run.andThen, hPre, forOf, hThrow]

/-- Under the bindings of the module as written, the handlers with bindings are
the handlers. -/
theorem handlers_at_moduleBindings (registry : List DestinationConfig) (env : Env)
    (req : Request) :
    handleGoogleWebhookIn moduleBindings registry env req = handleGoogleWebhook registry env req ∧
    handleOutlookWebhookIn moduleBindings registry env req =
      handleOutlookWebhook registry env req :=
  ⟨rfl, rfl⟩

/-- C4, as the code has it. One `try`/`catch` encloses the whole loop, so the
fan-out stops at the first failed submission. For every unsynced source event,
every destination list `pre ++ calendar :: post` and any bindings: if the
iterations for `pre` complete, and the iteration for `calendar` makes the
submission `a`, which throws `err`, then the handler's calls are the fetch, the
calls for `pre`, the submission `a`, then `console.error` with `err` and
`res.status(500).send('Error')`. No submission is attempted for `post`, and the
handler reports the failure. -/
theorem fanout_stops_at_failed_submission (b : Bindings) (env : Env) (req : Request)
    (pre post : List DestinationConfig) (calendar : DestinationConfig) (a : Action)
    (err : JsError) :
    (∀ event rest, env.listOutcome = ListOutcome.items (event :: rest) →
      includes (googleGuardText event) SYNC_TAG = false →
      (forOf (googleLoopBodyIn b env event) pre false).error = none →
      a.isSubmission = true →
      (googleLoopBodyIn b env event calendar
        (forOf (googleLoopBodyIn b env event) pre false).sent).trace = [a] →
      (googleLoopBodyIn b env event calendar
        (forOf (googleLoopBodyIn b env event) pre false).sent).error = some err →
      (handleGoogleWebhookIn b (pre ++ calendar :: post) env req).trace =
        [Action.googleList "primary"] ++ (forOf (googleLoopBodyIn b env event) pre false).trace ++
          [a, Action.logError "Google Webhook Error:" err, Action.respond 500 "Error"] ∧
      submissions (handleGoogleWebhookIn b (pre ++ calendar :: post) env req) =
        (forOf (googleLoopBodyIn b env event) pre false).trace.filter Action.isSubmission
          ++ [a]) ∧
    (∀ eventData outlookEvent,
      (req.body.bind (fun b => b.value)).bind (fun l => l.head?) = some eventData →
      env.getOutcome = Except.ok outlookEvent →
      includes (outlookGuardText outlookEvent) SYNC_TAG = false →
      (forOf (outlookLoopBodyIn b env outlookEvent) pre false).error = none →
      a.isSubmission = true →
      (outlookLoopBodyIn b env outlookEvent calendar
        (forOf (outlookLoopBodyIn b env outlookEvent) pre false).sent).trace = [a] →
      (outlookLoopBodyIn b env outlookEvent calendar
        (forOf (outlookLoopBodyIn b env outlookEvent) pre false).sent).error = some err →
      (handleOutlookWebhookIn b (pre ++ calendar :: post) env req).trace =
        [Action.outlookGet ("/me/events/" ++ eventData.id)] ++
          (forOf (outlookLoopBodyIn b env outlookEvent) pre false).trace ++
          [a, Action.logError "Outlook Webhook Error:" err, Action.respond 500 "Error"] ∧
      submissions (handleOutlookWebhookIn b (pre ++ calendar :: post) env req) =
        (forOf (outlookLoopBodyIn b env outlookEvent) pre false).trace.filter
          Action.isSubmission ++ [a]) := by
  constructor
  · intro event rest hList hGuard hPre hSub hTrace hThrow
    have hLoop := forOf_throw (googleLoopBodyIn b env event) pre post calendar err hPre hThrow
    simp only [googleGuardText] at hGuard
    have hRun : (handleGoogleWebhookIn b (pre ++ calendar :: post) env req).trace =
        [Action.googleList "primary"] ++ (forOf (googleLoopBodyIn b env event) pre false).trace ++
          [a, Action.logError "Google Webhook Error:" err, Action.respond 500 "Error"] := by
      simp [handleGoogleWebhookIn, googleTryBlockIn, hList, hGuard, hLoop, hTrace, Run.andThen,
        tryCatch, send]
    refine ⟨hRun, ?_⟩
    simp only [submissions, hRun, List.filter_append]
    rw [List.filter_cons_of_pos hSub]
    rfl
  · intro eventData outlookEvent hReq hGet hGuard hPre hSub hTrace hThrow
    have hLoop := forOf_throw (outlookLoopBodyIn b env outlookEvent) pre post calendar err
      hPre hThrow
    simp only [outlookGuardText] at hGuard
    have hRun : (handleOutlookWebhookIn b (pre ++ calendar :: post) env req).trace =
        [Action.outlookGet ("/me/events/" ++ eventData.id)] ++
          (forOf (outlookLoopBodyIn b env outlookEvent) pre false).trace ++
          [a, Action.logError "Outlook Webhook Error:" err, Action.respond 500 "Error"] := by
      simp [handleOutlookWebhookIn, outlookTryBlockIn, hReq, hGet, hGuard, hLoop, hTrace,
        Run.andThen, tryCatch, send]
    refine ⟨hRun, ?_⟩
    simp only [submissions, hRun, List.filter_append]
    rw [List.filter_cons_of_pos hSub]
    rfl

/-- Witness for C4 as amended: the destination list of the source under bindings
that reach the submissions; the insert into the first destination succeeds, the
insert into the second one, 'primary', rejects, and nothing is sent to the
third. -/
theorem fanout_stops_at_failed_submission_witness :
    (handleGoogleWebhookIn reachingBindings SYNC_CALENDARS (insertRejects "primary")
        notification42).trace =
      [Action.googleList "primary",
       Action.googleInsert "work@example.com" (buildGoogleToGoogleEvent standup),
       Action.googleInsert "primary" (buildGoogleToGoogleEvent standup),
       Action.logError "Google Webhook Error:" (JsError.providerError "insert rejected"),
       Action.respond 500 "Error"] ∧
    (handleOutlookWebhookIn reachingBindings SYNC_CALENDARS (insertRejects "primary")
        notification42).trace =
      [Action.outlookGet "/me/events/42",
       Action.googleInsert "work@example.com" (buildGoogleEvent outlookStandup),
       Action.googleInsert "primary" (buildGoogleEvent outlookStandup),
       Action.logError "Outlook Webhook Error:" (JsError.providerError "insert rejected"),
       Action.respond 500 "Error"] :=
  ⟨((fanout_stops_at_failed_submission reachingBindings (insertRejects "primary")
      notification42
      [⟨"Work Google", "google", "work@example.com"⟩]
      [⟨"Personal Outlook", "outlook", "me"⟩]
      ⟨"Personal Google", "google", "primary"⟩
      (Action.googleInsert "primary" (buildGoogleToGoogleEvent standup))
      (JsError.providerError "insert rejected")).1
      standup [] rfl (by decide) (by decide) rfl (by decide) (by decide)).1,
   ((fanout_stops_at_failed_submission reachingBindings (insertRejects "primary")
      notification42
      [⟨"Work Google", "google", "work@example.com"⟩]
      [⟨"Personal Outlook", "outlook", "me"⟩]
      ⟨"Personal Google", "google", "primary"⟩
      (Action.googleInsert "primary" (buildGoogleEvent outlookStandup))
      (JsError.providerError "insert rejected")).2
      ⟨"42"⟩ outlookStandup rfl rfl (by decide) (by decide) rfl (by decide) (by decide)).1⟩

/-- C4 as stated fails. Take the three destinations of the source under bindings
that reach the submissions, an unsynced event, and collaborators where only the
insert into the first destination rejects. The submission to the first
destination is made and throws; the handler then logs and responds 500, and the
other two destinations, whose submissions would have succeeded, are sent
nothing. With the same input and no failing insert, all three are served. -/
theorem failure_isolation_counterexample :
    handleGoogleWebhookIn reachingBindings SYNC_CALENDARS (insertRejects "work@example.com")
        notification42 =
      { trace := [Action.googleList "primary",
                  Action.googleInsert "work@example.com" (buildGoogleToGoogleEvent standup),
                  Action.logError "Google Webhook Error:"
                    (JsError.providerError "insert rejected"),
                  Action.respond 500 "Error"]
        sent := true, error := none } ∧
    (insertRejects "work@example.com").insertOutcome "work@example.com"
        (buildGoogleToGoogleEvent standup) = some (JsError.providerError "insert rejected") ∧
    (insertRejects "work@example.com").insertOutcome "primary"
        (buildGoogleToGoogleEvent standup) = none ∧
    (insertRejects "work@example.com").postOutcome "/users/me/events"
        (buildOutlookEvent standup) = none ∧
    ¬ (∀ calendar ∈ SYNC_CALENDARS.tail, ∃ a,
        expectedGoogleSubmission standup calendar = some a ∧
        a ∈ (handleGoogleWebhookIn reachingBindings SYNC_CALENDARS
              (insertRejects "work@example.com") notification42).trace) ∧
    (handleGoogleWebhookIn reachingBindings SYNC_CALENDARS (allSucceed [standup] outlookStandup)
        notification42).trace =
      [Action.googleList "primary",
       Action.googleInsert "work@example.com" (buildGoogleToGoogleEvent standup),
       Action.googleInsert "primary" (buildGoogleToGoogleEvent standup),
       Action.outlookPost "/users/me/events" (buildOutlookEvent standup),
       Action.respond 200 "OK"] := by
  refine ⟨by decide, by decide, by decide, by decide, ?_, by decide⟩
  intro h
  obtain ⟨a, ha, hmem⟩ := h ⟨"Personal Google", "google", "primary"⟩ (by decide)
  have hrun : (handleGoogleWebhookIn reachingBindings SYNC_CALENDARS
      (insertRejects "work@example.com") notification42).trace =
      [Action.googleList "primary",
       Action.googleInsert "work@example.com" (buildGoogleToGoogleEvent standup),
       Action.logError "Google Webhook Error:" (JsError.providerError "insert rejected"),
       Action.respond 500 "Error"] := by decide
  rw [hrun] at hmem
  have ha' : a = Action.googleInsert "primary" (buildGoogleToGoogleEvent standup) := by
    have : expectedGoogleSubmission standup ⟨"Personal Google", "google", "primary"⟩
        = some (Action.googleInsert "primary" (buildGoogleToGoogleEvent standup)) := by
      decide
    rw [this] at ha
    exact (Option.some.inj ha).symm
  subst ha'
  revert hmem
  decide

/-- C3 fails on the code. With the destination list of the source, an unsynced
event and provider calls that all succeed, each handler throws in the first
iteration, at the submission statement (`calendar.events` is read on the list
entry, which has no such property), logs the error and responds 500: it makes
no submission, where the three destinations are due one each. -/
theorem fanout_completeness_violated :
    handleGoogleWebhook SYNC_CALENDARS (allSucceed [standup] outlookStandup) notification42 =
      { trace := [Action.googleList "primary",
                  Action.logError "Google Webhook Error:"
                    (JsError.typeError "Cannot read properties of undefined (reading 'insert')"),
                  Action.respond 500 "Error"]
        sent := true, error := none } ∧
    submissions (handleGoogleWebhook SYNC_CALENDARS (allSucceed [standup] outlookStandup)
      notification42) = [] ∧
    SYNC_CALENDARS.filterMap (expectedGoogleSubmission standup) =
      [Action.googleInsert "work@example.com" (buildGoogleToGoogleEvent standup),
       Action.googleInsert "primary" (buildGoogleToGoogleEvent standup),
       Action.outlookPost "/users/me/events" (buildOutlookEvent standup)] ∧
    handleOutlookWebhook SYNC_CALENDARS (allSucceed [standup] outlookStandup) notification42 =
      { trace := [Action.outlookGet "/me/events/42",
                  Action.logError "Outlook Webhook Error:"
                    (JsError.typeError "Cannot read properties of undefined (reading 'insert')"),
                  Action.respond 500 "Error"]
        sent := true, error := none } ∧
    submissions (handleOutlookWebhook SYNC_CALENDARS (allSucceed [standup] outlookStandup)
      notification42) = [] ∧
    SYNC_CALENDARS.filterMap (expectedOutlookSubmission outlookStandup) =
      [Action.googleInsert "work@example.com" (buildGoogleEvent outlookStandup),
       Action.googleInsert "primary" (buildGoogleEvent outlookStandup),
       Action.outlookPost "/users/me/events" (buildOutlookToOutlookEvent outlookStandup)] := by
  refine ⟨by decide, by decide, by decide, by decide, by decide, by decide⟩

/-- C9 fails on the code. With a destination list holding a Google destination
and then a destination of unknown kind, and an unsynced event, each handler
throws at the Google destination and leaves the loop: the destination of
unknown kind is never reached, and no configuration error is logged for it. -/
theorem unrecognized_destination_not_reported :
    handleGoogleWebhook
        [{ name := "Work Google", provider := "google", calendarId := "work@example.com" },
         legacyCalendar]
        (allSucceed [standup] outlookStandup) notification42 =
      { trace := [Action.googleList "primary",
                  Action.logError "Google Webhook Error:"
                    (JsError.typeError "Cannot read properties of undefined (reading 'insert')"),
                  Action.respond 500 "Error"]
        sent := true, error := none } ∧
    Action.logCalendar "Unrecognized calendar provider type:" legacyCalendar ∉
      (handleGoogleWebhook
        [{ name := "Work Google", provider := "google", calendarId := "work@example.com" },
         legacyCalendar]
        (allSucceed [standup] outlookStandup) notification42).trace ∧
    handleOutlookWebhook
        [{ name := "Work Google", provider := "google", calendarId := "work@example.com" },
         legacyCalendar]
        (allSucceed [standup] outlookStandup) notification42 =
      { trace := [Action.outlookGet "/me/events/42",
                  Action.logError "Outlook Webhook Error:"
                    (JsError.typeError "Cannot read properties of undefined (reading 'insert')"),
                  Action.respond 500 "Error"]
        sent := true, error := none } ∧
    Action.logCalendar "Unrecognized calendar provider type:" legacyCalendar ∉
      (handleOutlookWebhook
        [{ name := "Work Google", provider := "google", calendarId := "work@example.com" },
         legacyCalendar]
        (allSucceed [standup] outlookStandup) notification42).trace := by
  refine ⟨by decide, by decide, by decide, by decide⟩

/-! ## Handlers: the response -/

/-- With destinations of known kinds only, the loop makes no call: it completes
at once on the empty list and throws in its first iteration otherwise. -/
theorem forOf_google_known (env : Env) (event : GoogleEvent) (sent : Bool)
    (registry : List DestinationConfig)
    (hKnown : ∀ calendar ∈ registry, calendar.provider = "google" ∨ calendar.provider = "outlook") :
    (forOf (googleLoopBody env event) registry sent).trace = [] ∧
    (forOf (googleLoopBody env event) registry sent).sent = sent := by
  cases registry with
  | nil => exact ⟨rfl, rfl⟩
  | cons calendar rest =>
    rcases hKnown calendar (List.mem_cons_self _ _) with h | h <;>
      simp [forOf, googleLoopBody, h, DestinationConfig.events, outlookCalendarId, Run.andThen]

theorem forOf_outlook_known (env : Env) (outlookEvent : OutlookEvent) (sent : Bool)
    (registry : List DestinationConfig)
    (hKnown : ∀ calendar ∈ registry, calendar.provider = "google" ∨ calendar.provider = "outlook") :
    (forOf (outlookLoopBody env outlookEvent) registry sent).trace = [] ∧
    (forOf (outlookLoopBody env outlookEvent) registry sent).sent = sent := by
  cases registry with
  | nil => exact ⟨rfl, rfl⟩
  | cons calendar rest =>
    rcases hKnown calendar (List.mem_cons_self _ _) with h | h <;>
      simp [forOf, outlookLoopBody, h, DestinationConfig.events, outlookCalendarId, Run.andThen]

/-- One response per invocation, for any destination list of known kinds. -/
theorem google_single_response_of_known (registry : List DestinationConfig) (env : Env)
    (req : Request)
    (hKnown : ∀ calendar ∈ registry, calendar.provider = "google" ∨ calendar.provider = "outlook") :
    (responses (handleGoogleWebhook registry env req) = [Action.respond 200 "OK"] ∨
      responses (handleGoogleWebhook registry env req) = [Action.respond 500 "Error"]) ∧
    (handleGoogleWebhook registry env req).error = none := by
  have key : ∀ loop : Run, loop.trace = [] → loop.sent = false →
      (responses (tryCatch
          ((Run.andThen { trace := [Action.googleList "primary"], sent := false, error := none }
              (fun _ => loop)).andThen (fun sent => send env sent 200 "OK"))
          (fun err sent => Run.andThen
            { trace := [Action.logError "Google Webhook Error:" err], sent := sent, error := none }
            (fun sent => send env sent 500 "Error"))) = [Action.respond 200 "OK"] ∨
        responses (tryCatch
          ((Run.andThen { trace := [Action.googleList "primary"], sent := false, error := none }
              (fun _ => loop)).andThen (fun sent => send env sent 200 "OK"))
          (fun err sent => Run.andThen
            { trace := [Action.logError "Google Webhook Error:" err], sent := sent, error := none }
            (fun sent => send env sent 500 "Error"))) = [Action.respond 500 "Error"]) ∧
      (tryCatch
          ((Run.andThen { trace := [Action.googleList "primary"], sent := false, error := none }
              (fun _ => loop)).andThen (fun sent => send env sent 200 "OK"))
          (fun err sent => Run.andThen
            { trace := [Action.logError "Google Webhook Error:" err], sent := sent, error := none }
            (fun sent => send env sent 500 "Error"))).error = none := by
    intro loop hTrace hSent
    cases hErr : loop.error with
    | none =>
      simp [Run.andThen, tryCatch, send, responses, hErr, hTrace, hSent, Action.isResponse]
    | some e =>
      simp [Run.andThen, tryCatch, send, responses, hErr, hTrace, hSent, Action.isResponse]
  unfold handleGoogleWebhook googleTryBlock
  cases hList : env.listOutcome with
  | throws err =>
    simp [Run.andThen, tryCatch, send, responses, Action.isResponse]
  | noItems =>
    simp [Run.andThen, tryCatch, send, responses, Action.isResponse]
  | items items =>
    cases items with
    | nil => exact key { trace := [], sent := false, error := none } rfl rfl
    | cons event rest =>
      by_cases hGuard : includes (orEmpty event.description) SYNC_TAG = true
      · simpa [hGuard] using key { trace := [], sent := false, error := none } rfl rfl
      · have h := forOf_google_known env event false registry hKnown
        simpa [hGuard] using key _ h.1 h.2

theorem outlook_single_response_of_known (registry : List DestinationConfig) (env : Env)
    (req : Request)
    (hKnown : ∀ calendar ∈ registry, calendar.provider = "google" ∨ calendar.provider = "outlook") :
    (responses (handleOutlookWebhook registry env req) = [Action.respond 200 "OK"] ∨
      responses (handleOutlookWebhook registry env req) = [Action.respond 400 "No event data"] ∨
      responses (handleOutlookWebhook registry env req) = [Action.respond 500 "Error"]) ∧
    (handleOutlookWebhook registry env req).error = none := by
  unfold handleOutlookWebhook
  cases hReq : (req.body.bind (fun b => b.value)).bind (fun l => l.head?) with
  | none => simp [send, responses, Action.isResponse]
  | some eventData =>
    have key : ∀ loop : Run, loop.trace = [] → loop.sent = false →
        (responses (tryCatch
            ((Run.andThen { trace := [Action.outlookGet ("/me/events/" ++ eventData.id)],
                            sent := false, error := none }
                (fun _ => loop)).andThen (fun sent => send env sent 200 "OK"))
            (fun err sent => Run.andThen
              { trace := [Action.logError "Outlook Webhook Error:" err], sent := sent,
                error := none }
              (fun sent => send env sent 500 "Error"))) = [Action.respond 200 "OK"] ∨
          responses (tryCatch
            ((Run.andThen { trace := [Action.outlookGet ("/me/events/" ++ eventData.id)],
                            sent := false, error := none }
                (fun _ => loop)).andThen (fun sent => send env sent 200 "OK"))
            (fun err sent => Run.andThen
              { trace := [Action.logError "Outlook Webhook Error:" err], sent := sent,
                error := none }
              (fun sent => send env sent 500 "Error"))) = [Action.respond 500 "Error"]) ∧
        (tryCatch
            ((Run.andThen { trace := [Action.outlookGet ("/me/events/" ++ eventData.id)],
                            sent := false, error := none }
                (fun _ => loop)).andThen (fun sent => send env sent 200 "OK"))
            (fun err sent => Run.andThen
              { trace := [Action.logError "Outlook Webhook Error:" err], sent := sent,
                error := none }
              (fun sent => send env sent 500 "Error"))).error = none := by
      intro loop hTrace hSent
      cases hErr : loop.error with
      | none =>
        simp [Run.andThen, tryCatch, send, responses, hErr, hTrace, hSent, Action.isResponse]
      | some e =>
        simp [Run.andThen, tryCatch, send, responses, hErr, hTrace, hSent, Action.isResponse]
    unfold outlookTryBlock
    cases hGet : env.getOutcome with
    | error err =>
      simp [Run.andThen, tryCatch, send, responses, Action.isResponse]
    | ok outlookEvent =>
      by_cases hGuard :
          includes (orEmpty (outlookEvent.body.bind (fun b => b.content))) SYNC_TAG = true
      · have h := key { trace := [], sent := false, error := none } rfl rfl
        simp only [hGuard, Bool.not_true, Bool.false_eq_true, if_false]
        exact ⟨h.1.elim Or.inl (fun h' => Or.inr (Or.inr h')), h.2⟩
      · have hk := forOf_outlook_known env outlookEvent false registry hKnown
        have h := key _ hk.1 hk.2
        simp only [Bool.not_eq_true] at hGuard
        simp only [hGuard, Bool.not_false, if_true]
        exact ⟨h.1.elim Or.inl (fun h' => Or.inr (Or.inr h')), h.2⟩

/-- C10. Single response: with the destination list of the source,
`SYNC_CALENDARS`, for every request and every outcome of the provider calls, one
invocation of `handleGoogleWebhook` calls `res.status(..).send(..)` exactly once
(status 200 or 500), one invocation of `handleOutlookWebhook` calls it exactly
once (status 200, 400 or 500), and the invocation completes without an
exception. -/
theorem single_response (env : Env) (req : Request) :
    ((responses (handleGoogleWebhook SYNC_CALENDARS env req)).length = 1 ∧
      (responses (handleGoogleWebhook SYNC_CALENDARS env req) = [Action.respond 200 "OK"] ∨
        responses (handleGoogleWebhook SYNC_CALENDARS env req) = [Action.respond 500 "Error"]) ∧
      (handleGoogleWebhook SYNC_CALENDARS env req).error = none) ∧
    ((responses (handleOutlookWebhook SYNC_CALENDARS env req)).length = 1 ∧
      (responses (handleOutlookWebhook SYNC_CALENDARS env req) = [Action.respond 200 "OK"] ∨
        responses (handleOutlookWebhook SYNC_CALENDARS env req)
          = [Action.respond 400 "No event data"] ∨
        responses (handleOutlookWebhook SYNC_CALENDARS env req) = [Action.respond 500 "Error"]) ∧
      (handleOutlookWebhook SYNC_CALENDARS env req).error = none) := by
  have hKnown : ∀ calendar ∈ SYNC_CALENDARS,
      calendar.provider = "google" ∨ calendar.provider = "outlook" := by decide
  have hg := google_single_response_of_known SYNC_CALENDARS env req hKnown
  have ho := outlook_single_response_of_known SYNC_CALENDARS env req hKnown
  refine ⟨⟨?_, hg.1, hg.2⟩, ⟨?_, ho.1, ho.2⟩⟩
  · rcases hg.1 with h | h <;> rw [h] <;> rfl
  · rcases ho.1 with h | h | h <;> rw [h] <;> rfl

end CalendarSync
